import Mathlib

/-!
Shallow embedding of the nvme_exporter collector (src/main.go).

The program shells out to the `nvme` CLI, parses its JSON output with the
gjson library, normalizes field values to float64 via `ToFloat`, and emits
one Prometheus metric sample per smart-log field per device.

Modelling conventions:
* float64 values are embedded as `ℚ`; the numeric literals the claims touch
  are exactly representable in binary64 up to the shown decimals, so no
  rounding is modelled.  `strconv.ParseFloat` is embedded by `parseFloat`:
  a purely syntactic scanning phase (`parseFloatAux`) over the characters,
  followed by an exact-value assembly (`ParsedNum.toRat`).  It covers finite
  decimal literals (sign, digits, optional decimal point, optional decimal
  exponent); non-finite forms ("inf", "nan") and hex floats are outside the
  modelled input space and map to failure.
* a gjson `Result` is embedded as `GjsonResult`, restricted to the type
  tags the program inspects (Null, True/False, Number, String).
* process-level effects (`exec.Command`, `log.Fatal`, channel sends, the Go
  runtime panic on out-of-range slice indexing) are made explicit: a
  collection pass takes an `Env` describing the external world and returns
  the samples emitted before the pass ended together with a `PassOutcome`
  (normal completion, `log.Fatal` termination, or panic).
-/

namespace NvmeExporter

/-- One JSON value as seen through gjson's `Result`, restricted to the type
tags `ToFloat` and `Collect` inspect. -/
inductive GjsonResult where
  | null
  | boolean (b : Bool)
  | number (q : ℚ)
  | str (s : String)
deriving DecidableEq, Repr

/-- Digits of a decimal integer to its value. -/
def digitsVal (ds : List Char) : ℕ :=
  ds.foldl (fun acc c => 10 * acc + (c.toNat - '0'.toNat)) 0

/-- The syntactic pieces of a finite decimal literal: sign, the mantissa
digits (integer and fractional parts concatenated) as a natural number, the
number of fractional digits, and a signed decimal exponent. -/
structure ParsedNum where
  neg : Bool
  mantissa : ℕ
  fracLen : ℕ
  expNeg : Bool
  exp : ℕ
deriving DecidableEq, Repr

/-- Exact value of a scanned decimal literal:
`± mantissa / 10 ^ fracLen * 10 ^ (± exp)`. -/
def ParsedNum.toRat (p : ParsedNum) : ℚ :=
  let base : ℚ := (p.mantissa : ℚ) / 10 ^ p.fracLen
  let signed : ℚ := if p.neg then -base else base
  if p.expNeg then signed / 10 ^ p.exp else signed * 10 ^ p.exp

/-- Scanning phase of `strconv.ParseFloat` on a finite decimal literal:
optional sign, digits with an optional decimal point (at least one digit in
the mantissa), optional decimal exponent.  The whole character list must be
consumed; anything else is a parse failure (`none`), matching ParseFloat's
non-nil error. -/
def parseFloatAux (cs : List Char) : Option ParsedNum :=
  let signAnd : Bool × List Char :=
    match cs with
    | '+' :: rest => (false, rest)
    | '-' :: rest => (true, rest)
    | _ => (false, cs)
  let intSpan := signAnd.2.span Char.isDigit
  let fracSpan : List Char × List Char :=
    match intSpan.2 with
    | '.' :: rest => rest.span Char.isDigit
    | _ => ([], intSpan.2)
  if intSpan.1.isEmpty && fracSpan.1.isEmpty then none
  else
    let mant := digitsVal (intSpan.1 ++ fracSpan.1)
    let fracLen := fracSpan.1.length
    match fracSpan.2 with
    | [] => some ⟨signAnd.1, mant, fracLen, false, 0⟩
    | e :: rest =>
      if e = 'e' ∨ e = 'E' then
        let expSignAnd : Bool × List Char :=
          match rest with
          | '+' :: r => (false, r)
          | '-' :: r => (true, r)
          | _ => (false, rest)
        let expSpan := expSignAnd.2.span Char.isDigit
        if expSpan.1.isEmpty || !expSpan.2.isEmpty then none
        else some ⟨signAnd.1, mant, fracLen, expSignAnd.1, digitsVal expSpan.1⟩
      else none

/-- Embedding of Go's `strconv.ParseFloat` on finite decimal literals. -/
def parseFloat (s : String) : Option ℚ :=
  (parseFloatAux s.data).map ParsedNum.toRat

/-- `strings.Replace(s, ",", "", -1)`: remove every comma. -/
def removeCommas (s : String) : String :=
  ⟨s.data.filter (fun c => c ≠ ',')⟩

/-- gjson's `Result.String()`. -/
def GjsonResult.String : GjsonResult → String
  | .null => ""
  | .boolean b => if b then "true" else "false"
  | .number q => toString q
  | .str s => s

/-- gjson's `Result.Float()`: 0 for Null/False, 1 for True, the number for
Number, and `ParseFloat` with the error ignored for String. -/
def GjsonResult.Float : GjsonResult → ℚ
  | .null => 0
  | .boolean b => if b then 1 else 0
  | .number q => q
  | .str s => (parseFloat s).getD 0

/-- `ToFloat` from src/main.go lines 322-333: on a String-typed result,
strip commas and `ParseFloat`, returning 0 on parse error; otherwise
`Result.Float()`. -/
def ToFloat (value : GjsonResult) : ℚ :=
  match value with
  | .str s =>
    let noCommas := removeCommas s
    match parseFloat noCommas with
    | none => 0
    | some f => f
  | _ => value.Float

/-- Prometheus metric kinds used by the program (`prometheus.GaugeValue`,
`prometheus.CounterValue`). -/
inductive ValueType where
  | gauge
  | counter
deriving DecidableEq, Repr

/-- One emitted sample (`prometheus.MustNewConstMetric(desc, valueType,
value, device, model)` sent on the collect channel): descriptor name, metric
kind, normalized value, and the two label values. -/
structure Metric where
  desc : String
  valueType : ValueType
  value : ℚ
  device : String
  model : String
deriving DecidableEq, Repr

/-- gjson key extraction on a flat JSON object represented as an association
list: a present key yields its value, an absent key yields a Null-typed
result (gjson's zero `Result`). -/
def getKey (obj : List (String × GjsonResult)) (key : String) : GjsonResult :=
  match obj.lookup key with
  | some v => v
  | none => .null

/-- The 22 smart-log keys requested by `gjson.GetMany` in `Collect`
(src/main.go lines 355-377), in source order. -/
def smartLogKeys : List String :=
  ["critical_warning", "temperature", "avail_spare", "spare_thresh",
   "percent_used", "endurance_grp_critical_warning_summary",
   "data_units_read", "data_units_written", "host_read_commands",
   "host_write_commands", "controller_busy_time", "power_cycles",
   "power_on_hours", "unsafe_shutdowns", "media_errors",
   "num_err_log_entries", "warning_temp_time", "critical_comp_time",
   "thm_temp1_trans_count", "thm_temp2_trans_count", "thm_temp1_total_time",
   "thm_temp2_total_time"]

/-- `gjson.GetMany`: one result per requested path, in path order. -/
def GetMany (obj : List (String × GjsonResult)) (paths : List String) : List GjsonResult :=
  paths.map (getKey obj)

/-- The per-device body of `Collect` (src/main.go lines 355-400): extract the
22 fields with `GetMany`, then send one const metric per field.  The
descriptor names come from `newNvmeCollector`; note the last two descriptors
are named `..._trans_time` although they read the `..._total_time` fields,
exactly as in the source (lines 271 and 283).  `GetMany` returns one result
per requested path, so the `getD` defaults are never used. -/
def collectDevice (device model : String) (smartLog : List (String × GjsonResult)) :
    List Metric :=
  let m := GetMany smartLog smartLogKeys
  [⟨"nvme_critical_warning", .gauge, ToFloat (m.getD 0 .null), device, model⟩,
   ⟨"nvme_temperature", .gauge, ToFloat (m.getD 1 .null), device, model⟩,
   ⟨"nvme_avail_spare", .gauge, ToFloat (m.getD 2 .null), device, model⟩,
   ⟨"nvme_spare_thresh", .gauge, ToFloat (m.getD 3 .null), device, model⟩,
   ⟨"nvme_percent_used", .gauge, ToFloat (m.getD 4 .null), device, model⟩,
   ⟨"nvme_endurance_grp_critical_warning_summary", .gauge, ToFloat (m.getD 5 .null), device, model⟩,
   ⟨"nvme_data_units_read", .counter, ToFloat (m.getD 6 .null), device, model⟩,
   ⟨"nvme_data_units_written", .counter, ToFloat (m.getD 7 .null), device, model⟩,
   ⟨"nvme_host_read_commands", .counter, ToFloat (m.getD 8 .null), device, model⟩,
   ⟨"nvme_host_write_commands", .counter, ToFloat (m.getD 9 .null), device, model⟩,
   ⟨"nvme_controller_busy_time", .counter, ToFloat (m.getD 10 .null), device, model⟩,
   ⟨"nvme_power_cycles", .counter, ToFloat (m.getD 11 .null), device, model⟩,
   ⟨"nvme_power_on_hours", .counter, ToFloat (m.getD 12 .null), device, model⟩,
   ⟨"nvme_unsafe_shutdowns", .counter, ToFloat (m.getD 13 .null), device, model⟩,
   ⟨"nvme_media_errors", .counter, ToFloat (m.getD 14 .null), device, model⟩,
   ⟨"nvme_num_err_log_entries", .counter, ToFloat (m.getD 15 .null), device, model⟩,
   ⟨"nvme_warning_temp_time", .counter, ToFloat (m.getD 16 .null), device, model⟩,
   ⟨"nvme_critical_comp_time", .counter, ToFloat (m.getD 17 .null), device, model⟩,
   ⟨"nvme_thm_temp1_trans_count", .counter, ToFloat (m.getD 18 .null), device, model⟩,
   ⟨"nvme_thm_temp2_trans_count", .counter, ToFloat (m.getD 19 .null), device, model⟩,
   ⟨"nvme_thm_temp1_trans_time", .counter, ToFloat (m.getD 20 .null), device, model⟩,
   ⟨"nvme_thm_temp2_trans_time", .counter, ToFloat (m.getD 21 .null), device, model⟩]

/-- The external world one collection pass interacts with: whether the
`nvme list` invocation succeeds and its output is valid JSON, the two
parallel arrays extracted from it (`Devices.#.DevicePath` and
`Devices.#.ModelNumber`), and per device-path the outcome of
`nvme smart-log <path> -o json` together with the decoded smart-log
object. -/
structure Env where
  listExecOk : Bool
  listJsonValid : Bool
  devicePaths : List GjsonResult
  modelNumbers : List GjsonResult
  smartLogExecOk : String → Bool
  smartLogJsonValid : String → Bool
  smartLog : String → List (String × GjsonResult)

/-- How a collection pass ends: normal return, `log.Fatal*` (which
terminates the whole process), or a Go runtime panic (out-of-range slice
index). -/
inductive PassOutcome where
  | ok
  | fatal (msg : String)
  | panicked (msg : String)
deriving DecidableEq, Repr

/-- What a collection pass produced before it ended: the metric samples sent
on the channel, the device-path arguments of the `nvme smart-log`
invocations attempted (in order), and how the pass ended. -/
structure PassResult where
  emitted : List Metric
  invoked : List String
  outcome : PassOutcome
deriving DecidableEq, Repr

/-- Diagnostic chosen by the smart-log branch of the loop body: the exec
error is checked before JSON validity, as in src/main.go lines 347-353. -/
def smartLogFailMsg (env : Env) (device : String) : String :=
  if !env.smartLogExecOk device then
    "Error running nvme smart-log command for device " ++ device
  else
    "nvmeSmartLog json is not valid for device: " ++ device

/-- The device loop of `Collect` (src/main.go lines 345-401).  `paths` is the
remaining suffix of the device-path array and `idx` the index of its head in
the full array; each iteration first evaluates `nvmeModelList[idx]` (a Go
slice index, which panics when out of range), then invokes `nvme smart-log`,
fatally aborting on exec error or invalid JSON, and otherwise emits the 22
samples of `collectDevice`. -/
def collectLoop (env : Env) : List GjsonResult → ℕ → List Metric → List String → PassResult
  | [], _, accM, accI => ⟨accM, accI, .ok⟩
  | d :: rest, idx, accM, accI =>
    match env.modelNumbers.get? idx with
    | none => ⟨accM, accI, .panicked "runtime error: index out of range"⟩
    | some nvmeModel =>
      let accI := accI ++ [d.String]
      if !env.smartLogExecOk d.String then
        ⟨accM, accI, .fatal (smartLogFailMsg env d.String)⟩
      else if !env.smartLogJsonValid d.String then
        ⟨accM, accI, .fatal (smartLogFailMsg env d.String)⟩
      else
        collectLoop env rest (idx + 1)
          (accM ++ collectDevice d.String nvmeModel.String (env.smartLog d.String)) accI

/-- One collection pass (`Collect`, src/main.go lines 335-402): run
`nvme list`, fatally abort on exec error or invalid JSON, then loop over the
extracted device-path array. -/
def Collect (env : Env) : PassResult :=
  if !env.listExecOk then ⟨[], [], .fatal "Error running nvme command"⟩
  else if !env.listJsonValid then ⟨[], [], .fatal "nvmeDeviceCmd json is not valid"⟩
  else collectLoop env env.devicePaths 0 [] []

/-- A device for which the smart-log invocation succeeds with valid JSON. -/
def okDevice (env : Env) (d : GjsonResult) : Prop :=
  env.smartLogExecOk d.String = true ∧ env.smartLogJsonValid d.String = true

instance (env : Env) (d : GjsonResult) : Decidable (okDevice env d) := by
  unfold okDevice; infer_instance

/-- The samples of a list of (path, model) pairs, each device contributing
its 22 `collectDevice` samples in order. -/
def devicesSamples (env : Env) (pairs : List (GjsonResult × GjsonResult)) : List Metric :=
  pairs.flatMap (fun p => collectDevice p.1.String p.2.String (env.smartLog p.1.String))

theorem devicesSamples_nil (env : Env) : devicesSamples env [] = [] := rfl

theorem devicesSamples_cons (env : Env) (d m : GjsonResult)
    (pairs : List (GjsonResult × GjsonResult)) :
    devicesSamples env ((d, m) :: pairs) =
      collectDevice d.String m.String (env.smartLog d.String) ++ devicesSamples env pairs := rfl

theorem collectLoop_ok (env : Env) :
    ∀ (paths : List GjsonResult) (idx : ℕ) (accM : List Metric) (accI : List String),
      idx + paths.length ≤ env.modelNumbers.length →
      (∀ d ∈ paths, okDevice env d) →
      collectLoop env paths idx accM accI =
        ⟨accM ++ devicesSamples env (paths.zip (env.modelNumbers.drop idx)),
          accI ++ paths.map GjsonResult.String, PassOutcome.ok⟩ := by
  intro paths
  induction paths with
  | nil => intro idx accM accI _ _; simp [collectLoop, devicesSamples]
  | cons d rest ih =>
    intro idx accM accI hlen hok
    obtain ⟨h1, h2⟩ := hok d (List.mem_cons_self d rest)
    have hidx : idx < env.modelNumbers.length := by
      simp only [List.length_cons] at hlen; omega
    have hget : env.modelNumbers.get? idx = some env.modelNumbers[idx] := by
      rw [List.get?_eq_getElem?]; exact List.getElem?_eq_getElem hidx
    have hdrop : env.modelNumbers.drop idx
        = env.modelNumbers[idx] :: env.modelNumbers.drop (idx + 1) :=
      (List.getElem_cons_drop _ _ hidx).symm
    have hrest : ∀ p ∈ rest, okDevice env p := fun p hp => hok p (List.mem_cons_of_mem _ hp)
    have hlen' : idx + 1 + rest.length ≤ env.modelNumbers.length := by
      simp only [List.length_cons] at hlen; omega
    simp only [collectLoop, hget, h1, h2, Bool.not_true, Bool.false_eq_true, if_false]
    rw [ih (idx + 1) _ _ hlen' hrest, hdrop, List.zip_cons_cons, devicesSamples_cons]
    simp [List.append_assoc]

theorem collectLoop_fatal (env : Env) :
    ∀ (pre : List GjsonResult) (d : GjsonResult) (post : List GjsonResult)
      (idx : ℕ) (accM : List Metric) (accI : List String),
      idx + pre.length < env.modelNumbers.length →
      (∀ p ∈ pre, okDevice env p) →
      ¬ okDevice env d →
      collectLoop env (pre ++ d :: post) idx accM accI =
        ⟨accM ++ devicesSamples env (pre.zip (env.modelNumbers.drop idx)),
          accI ++ pre.map GjsonResult.String ++ [d.String],
          PassOutcome.fatal (smartLogFailMsg env d.String)⟩ := by
  intro pre
  induction pre with
  | nil =>
    intro d post idx accM accI hlen _ hfail
    have hidx : idx < env.modelNumbers.length := by
      simp only [List.length_nil, Nat.add_zero] at hlen; omega
    have hget : env.modelNumbers.get? idx = some env.modelNumbers[idx] := by
      rw [List.get?_eq_getElem?]; exact List.getElem?_eq_getElem hidx
    by_cases hex : env.smartLogExecOk d.String = true
    · have hj : env.smartLogJsonValid d.String = false := by
        rcases Bool.eq_false_or_eq_true (env.smartLogJsonValid d.String) with h | h
        · exact absurd ⟨hex, h⟩ hfail
        · exact h
      simp only [List.nil_append, collectLoop, hget, hex, hj, Bool.not_true, Bool.not_false,
        Bool.false_eq_true, if_false, if_true]
      simp [devicesSamples]
    · have hex0 : env.smartLogExecOk d.String = false := by
        rcases Bool.eq_false_or_eq_true (env.smartLogExecOk d.String) with h | h
        · exact absurd h hex
        · exact h
      simp only [List.nil_append, collectLoop, hget, hex0, Bool.not_false, if_true]
      simp [devicesSamples]
  | cons p rest ih =>
    intro d post idx accM accI hlen hpre hfail
    obtain ⟨h1, h2⟩ := hpre p (List.mem_cons_self p rest)
    have hidx : idx < env.modelNumbers.length := by
      simp only [List.length_cons] at hlen; omega
    have hget : env.modelNumbers.get? idx = some env.modelNumbers[idx] := by
      rw [List.get?_eq_getElem?]; exact List.getElem?_eq_getElem hidx
    have hdrop : env.modelNumbers.drop idx
        = env.modelNumbers[idx] :: env.modelNumbers.drop (idx + 1) :=
      (List.getElem_cons_drop _ _ hidx).symm
    have hrest : ∀ q ∈ rest, okDevice env q := fun q hq => hpre q (List.mem_cons_of_mem _ hq)
    have hlen' : idx + 1 + rest.length < env.modelNumbers.length := by
      simp only [List.length_cons] at hlen; omega
    rw [List.cons_append]
    simp only [collectLoop, hget, h1, h2, Bool.not_true, Bool.false_eq_true, if_false]
    rw [ih d post (idx + 1) _ _ hlen' hrest hfail, hdrop, List.zip_cons_cons,
      devicesSamples_cons]
    simp [List.append_assoc]

theorem collectLoop_panics (env : Env) :
    ∀ (pre : List GjsonResult) (d : GjsonResult) (post : List GjsonResult)
      (idx : ℕ) (accM : List Metric) (accI : List String),
      idx + pre.length = env.modelNumbers.length →
      (∀ p ∈ pre, okDevice env p) →
      collectLoop env (pre ++ d :: post) idx accM accI =
        ⟨accM ++ devicesSamples env (pre.zip (env.modelNumbers.drop idx)),
          accI ++ pre.map GjsonResult.String,
          PassOutcome.panicked "runtime error: index out of range"⟩ := by
  intro pre
  induction pre with
  | nil =>
    intro d post idx accM accI hlen _
    have hlen0 : idx = env.modelNumbers.length := by
      simpa using hlen
    have hget : env.modelNumbers.get? idx = none := by
      rw [List.get?_eq_getElem?]
      exact List.getElem?_eq_none (by omega)
    simp only [List.nil_append, collectLoop, hget]
    simp [devicesSamples]
  | cons p rest ih =>
    intro d post idx accM accI hlen hpre
    obtain ⟨h1, h2⟩ := hpre p (List.mem_cons_self p rest)
    have hidx : idx < env.modelNumbers.length := by
      simp only [List.length_cons] at hlen; omega
    have hget : env.modelNumbers.get? idx = some env.modelNumbers[idx] := by
      rw [List.get?_eq_getElem?]; exact List.getElem?_eq_getElem hidx
    have hdrop : env.modelNumbers.drop idx
        = env.modelNumbers[idx] :: env.modelNumbers.drop (idx + 1) :=
      (List.getElem_cons_drop _ _ hidx).symm
    have hrest : ∀ q ∈ rest, okDevice env q := fun q hq => hpre q (List.mem_cons_of_mem _ hq)
    have hlen' : idx + 1 + rest.length = env.modelNumbers.length := by
      simp only [List.length_cons] at hlen; omega
    rw [List.cons_append]
    simp only [collectLoop, hget, h1, h2, Bool.not_true, Bool.false_eq_true, if_false]
    rw [ih d post (idx + 1) _ _ hlen' hrest, hdrop, List.zip_cons_cons, devicesSamples_cons]
    simp [List.append_assoc]

/-- The 22 descriptor names, in emission order (src/main.go lines 379-400,
names from `newNvmeCollector`); this is also the canonical order of spec §6. -/
def metricNames : List String :=
  ["nvme_critical_warning", "nvme_temperature", "nvme_avail_spare",
   "nvme_spare_thresh", "nvme_percent_used",
   "nvme_endurance_grp_critical_warning_summary", "nvme_data_units_read",
   "nvme_data_units_written", "nvme_host_read_commands",
   "nvme_host_write_commands", "nvme_controller_busy_time",
   "nvme_power_cycles", "nvme_power_on_hours", "nvme_unsafe_shutdowns",
   "nvme_media_errors", "nvme_num_err_log_entries", "nvme_warning_temp_time",
   "nvme_critical_comp_time", "nvme_thm_temp1_trans_count",
   "nvme_thm_temp2_trans_count", "nvme_thm_temp1_trans_time",
   "nvme_thm_temp2_trans_time"]

/-- The descriptor-name/metric-kind pairs, in emission order: the first six
samples are gauges, the remaining sixteen are counters (src/main.go lines
379-400). -/
def fieldClassification : List (String × ValueType) :=
  [("nvme_critical_warning", .gauge), ("nvme_temperature", .gauge),
   ("nvme_avail_spare", .gauge), ("nvme_spare_thresh", .gauge),
   ("nvme_percent_used", .gauge),
   ("nvme_endurance_grp_critical_warning_summary", .gauge),
   ("nvme_data_units_read", .counter), ("nvme_data_units_written", .counter),
   ("nvme_host_read_commands", .counter),
   ("nvme_host_write_commands", .counter),
   ("nvme_controller_busy_time", .counter), ("nvme_power_cycles", .counter),
   ("nvme_power_on_hours", .counter), ("nvme_unsafe_shutdowns", .counter),
   ("nvme_media_errors", .counter), ("nvme_num_err_log_entries", .counter),
   ("nvme_warning_temp_time", .counter), ("nvme_critical_comp_time", .counter),
   ("nvme_thm_temp1_trans_count", .counter),
   ("nvme_thm_temp2_trans_count", .counter),
   ("nvme_thm_temp1_trans_time", .counter),
   ("nvme_thm_temp2_trans_time", .counter)]

theorem removeCommas_idem (s : String) :
    removeCommas (removeCommas s) = removeCommas s := by
  simp [removeCommas, List.filter_filter, Bool.and_self]

/-- Modelled from the spec: the Kelvin-to-Fahrenheit conversion
`(K − 273.15) × 9/5 + 32` that §4.2 prescribes for the Fahrenheit variant of
this design.  The source contains no such conversion; this definition exists
only to compare the spec's formula against what the code emits. -/
def kelvinToFahrenheit (k : ℚ) : ℚ :=
  (k - 273.15) * 9 / 5 + 32

/-- A smart-log response carrying all 22 keys as native JSON numbers, with a
raw composite temperature of 300 Kelvin. -/
def sampleSmartLog : List (String × GjsonResult) :=
  [("critical_warning", .number 0), ("temperature", .number 300),
   ("avail_spare", .number 100), ("spare_thresh", .number 10),
   ("percent_used", .number 0),
   ("endurance_grp_critical_warning_summary", .number 0),
   ("data_units_read", .number 1000), ("data_units_written", .number 2000),
   ("host_read_commands", .number 3000), ("host_write_commands", .number 4000),
   ("controller_busy_time", .number 5), ("power_cycles", .number 10),
   ("power_on_hours", .number 100), ("unsafe_shutdowns", .number 1),
   ("media_errors", .number 0), ("num_err_log_entries", .number 0),
   ("warning_temp_time", .number 0), ("critical_comp_time", .number 0),
   ("thm_temp1_trans_count", .number 0), ("thm_temp2_trans_count", .number 0),
   ("thm_temp1_total_time", .number 0), ("thm_temp2_total_time", .number 0)]

/-- A healthy single-device world: one device `/dev/nvme0` of model
`Model X`, every external invocation succeeding with valid JSON. -/
def oneDeviceEnv : Env where
  listExecOk := true
  listJsonValid := true
  devicePaths := [.str "/dev/nvme0"]
  modelNumbers := [.str "Model X"]
  smartLogExecOk := fun _ => true
  smartLogJsonValid := fun _ => true
  smartLog := fun _ => sampleSmartLog

/-- C3: in every collection pass the six point-in-time fields
(critical_warning, temperature, avail_spare, spare_thresh, percent_used,
endurance_grp_critical_warning_summary) are emitted with gauge kind and the
remaining sixteen cumulative lifetime fields with counter kind, for every
device and every smart-log response. -/
theorem gauge_counter_classification :
    ∀ (device model : String) (log : List (String × GjsonResult)),
      (collectDevice device model log).map (fun s => (s.desc, s.valueType)) =
        fieldClassification := by
  intro device model log
  rfl

/-- C4: every device processed in a collection pass yields exactly 22
samples — one per canonical field, in the canonical §6 order given by
`metricNames` — and each of those samples carries that device's
(device-path, model) label pair. -/
theorem samples_per_device :
    ∀ (device model : String) (log : List (String × GjsonResult)),
      (collectDevice device model log).length = 22 ∧
      (collectDevice device model log).map Metric.desc = metricNames ∧
      ∀ s ∈ collectDevice device model log, s.device = device ∧ s.model = model := by
  intro device model log
  refine ⟨rfl, rfl, ?_⟩
  intro s hs
  simp only [collectDevice, List.mem_cons, List.not_mem_nil, or_false] at hs
  rcases hs with rfl|rfl|rfl|rfl|rfl|rfl|rfl|rfl|rfl|rfl|rfl|
    rfl|rfl|rfl|rfl|rfl|rfl|rfl|rfl|rfl|rfl|rfl <;> exact ⟨rfl, rfl⟩

theorem samples_per_device_witness :
    (⟨"nvme_critical_warning", ValueType.gauge, 0, "/dev/nvme0", "Model X"⟩ : Metric).device
        = "/dev/nvme0" ∧
    (⟨"nvme_critical_warning", ValueType.gauge, 0, "/dev/nvme0", "Model X"⟩ : Metric).model
        = "Model X" :=
  (samples_per_device "/dev/nvme0" "Model X" []).2.2
    ⟨"nvme_critical_warning", ValueType.gauge, 0, "/dev/nvme0", "Model X"⟩ (by decide)

/-- C6: comma normalization — `ToFloat` on a string gives the same value as
on the comma-stripped string, any string whose comma-stripped form parses
takes that parsed value, and `"1,234,567"` normalizes to `1234567`. -/
theorem toFloat_comma_normalization :
    (∀ s : String, ToFloat (.str s) = ToFloat (.str (removeCommas s))) ∧
    (∀ (s : String) (q : ℚ), parseFloat (removeCommas s) = some q →
      ToFloat (.str s) = q) ∧
    ToFloat (.str "1,234,567") = 1234567 := by
  refine ⟨?_, ?_, ?_⟩
  · intro s
    simp only [ToFloat]
    rw [removeCommas_idem]
  · intro s q h
    simp [ToFloat, h]
  · have h : parseFloatAux (removeCommas "1,234,567").data
        = some ⟨false, 1234567, 0, false, 0⟩ := by decide
    simp [ToFloat, parseFloat, h, ParsedNum.toRat]

theorem toFloat_comma_normalization_witness :
    parseFloat (removeCommas "1,234,567") = some 1234567 ∧
    ToFloat (.str "1,234,567") = 1234567 := by
  have h : parseFloat (removeCommas "1,234,567") = some 1234567 := by
    have ha : parseFloatAux (removeCommas "1,234,567").data
        = some ⟨false, 1234567, 0, false, 0⟩ := by decide
    simp [parseFloat, ha, ParsedNum.toRat]
  exact ⟨h, toFloat_comma_normalization.2.1 "1,234,567" 1234567 h⟩

/-- C7: any string-typed value whose comma-stripped form fails float parsing
normalizes to exactly 0 — `ToFloat` is a total function and has no error
channel, so normalization never signals an error. -/
theorem toFloat_parse_failure :
    ∀ s : String, parseFloat (removeCommas s) = none → ToFloat (.str s) = 0 := by
  intro s h
  simp [ToFloat, h]

theorem toFloat_parse_failure_witness :
    parseFloat (removeCommas "N/A") = none ∧ ToFloat (.str "N/A") = 0 :=
  ⟨by decide, toFloat_parse_failure "N/A" (by decide)⟩

theorem Collect_ok (env : Env) (h1 : env.listExecOk = true)
    (h2 : env.listJsonValid = true)
    (hlen : env.devicePaths.length ≤ env.modelNumbers.length)
    (hok : ∀ d ∈ env.devicePaths, okDevice env d) :
    Collect env = ⟨devicesSamples env (env.devicePaths.zip env.modelNumbers),
      env.devicePaths.map GjsonResult.String, PassOutcome.ok⟩ := by
  simp only [Collect, h1, h2, Bool.not_true, Bool.false_eq_true, if_false]
  rw [collectLoop_ok env env.devicePaths 0 [] [] (by omega) hok]
  simp

theorem Collect_smartLog_fatal (env : Env) (pre : List GjsonResult)
    (d : GjsonResult) (post : List GjsonResult)
    (h1 : env.listExecOk = true) (h2 : env.listJsonValid = true)
    (hsplit : env.devicePaths = pre ++ d :: post)
    (hpre : ∀ p ∈ pre, okDevice env p) (hfail : ¬ okDevice env d)
    (hlen : pre.length < env.modelNumbers.length) :
    Collect env = ⟨devicesSamples env (pre.zip env.modelNumbers),
      pre.map GjsonResult.String ++ [d.String],
      PassOutcome.fatal (smartLogFailMsg env d.String)⟩ := by
  simp only [Collect, h1, h2, Bool.not_true, Bool.false_eq_true, if_false]
  rw [hsplit, collectLoop_fatal env pre d post 0 [] [] (by omega) hpre hfail]
  simp

theorem Collect_model_panics (env : Env) (pre : List GjsonResult)
    (d : GjsonResult) (post : List GjsonResult)
    (h1 : env.listExecOk = true) (h2 : env.listJsonValid = true)
    (hsplit : env.devicePaths = pre ++ d :: post)
    (hlen : pre.length = env.modelNumbers.length)
    (hpre : ∀ p ∈ pre, okDevice env p) :
    Collect env = ⟨devicesSamples env (pre.zip env.modelNumbers),
      pre.map GjsonResult.String,
      PassOutcome.panicked "runtime error: index out of range"⟩ := by
  simp only [Collect, h1, h2, Bool.not_true, Bool.false_eq_true, if_false]
  rw [hsplit, collectLoop_panics env pre d post 0 [] [] (by omega) hpre]
  simp

/-- C1 counterexample: in a healthy pass over one device whose raw
temperature field is 300 (Kelvin), the emitted `nvme_temperature` sample
value is 300 — not `kelvinToFahrenheit 300 = 80.33`, which the claim
requires. -/
theorem temperature_not_converted_counterexample :
    ((Collect oneDeviceEnv).emitted.filter
        (fun s => s.desc == "nvme_temperature")).map Metric.value = [(300 : ℚ)] ∧
    kelvinToFahrenheit 300 = (80.33 : ℚ) ∧ (300 : ℚ) ≠ (80.33 : ℚ) := by
  refine ⟨by decide, ?_, by norm_num⟩
  norm_num [kelvinToFahrenheit]

/-- C1 (amended): the emitted `nvme_temperature` sample value equals the raw
temperature field unchanged — the program applies no Kelvin-to-Fahrenheit
conversion, so a raw value of 300 is emitted as 300. -/
theorem temperature_emitted_raw :
    ∀ (device model : String) (log : List (String × GjsonResult)) (k : ℚ),
      log.lookup "temperature" = some (.number k) →
      ((collectDevice device model log).get? 1).map Metric.value = some k := by
  intro device model log k h
  simp [collectDevice, GetMany, smartLogKeys, getKey, h, ToFloat, GjsonResult.Float]

theorem temperature_emitted_raw_witness :
    sampleSmartLog.lookup "temperature" = some (.number 300) ∧
    ((collectDevice "/dev/nvme0" "Model X" sampleSmartLog).get? 1).map Metric.value
      = some 300 :=
  ⟨by decide,
    temperature_emitted_raw "/dev/nvme0" "Model X" sampleSmartLog 300 (by decide)⟩

/-- A single-device world whose smart-log response carries only the
`critical_warning` key; the other 21 keys, `temperature` included, are
absent. -/
def missingKeyEnv : Env where
  listExecOk := true
  listJsonValid := true
  devicePaths := [.str "/dev/nvme0"]
  modelNumbers := [.str "Model X"]
  smartLogExecOk := fun _ => true
  smartLogJsonValid := fun _ => true
  smartLog := fun _ => [("critical_warning", .number 0)]

/-- C2 counterexample: with the `temperature` key absent from the smart-log
response, the pass does not terminate — it completes normally, still emits
all 22 samples, and the sample for the absent field is emitted with value 0,
contradicting the claimed ParseError-and-terminate behavior. -/
theorem missing_key_counterexample :
    (Collect missingKeyEnv).outcome = PassOutcome.ok ∧
    (Collect missingKeyEnv).emitted.length = 22 ∧
    ((Collect missingKeyEnv).emitted.get? 1).map (fun s => (s.desc, s.value))
      = some ("nvme_temperature", (0 : ℚ)) := by
  refine ⟨by decide, by decide, by decide⟩

/-- C2 (amended): an absent key is not an error — gjson yields a Null-typed
result which `ToFloat` maps to 0, `collectDevice` still emits all 22
samples, and a pass whose external invocations all succeed completes
normally regardless of which keys the smart-log responses carry. -/
theorem missing_key_emits_zero :
    (∀ (log : List (String × GjsonResult)) (key : String),
        log.lookup key = none → ToFloat (getKey log key) = 0) ∧
    (∀ (device model : String) (log : List (String × GjsonResult)),
        (collectDevice device model log).length = 22) ∧
    (∀ env : Env, env.listExecOk = true → env.listJsonValid = true →
        env.devicePaths.length ≤ env.modelNumbers.length →
        (∀ d ∈ env.devicePaths, okDevice env d) →
        (Collect env).outcome = PassOutcome.ok) := by
  refine ⟨?_, ?_, ?_⟩
  · intro log key h
    simp [getKey, h, ToFloat, GjsonResult.Float]
  · intro device model log
    rfl
  · intro env h1 h2 hlen hok
    rw [Collect_ok env h1 h2 hlen hok]

theorem missing_key_emits_zero_witness :
    ([("critical_warning", GjsonResult.number 0)].lookup "temperature" = none) ∧
    ToFloat (getKey [("critical_warning", GjsonResult.number 0)] "temperature") = 0 ∧
    (Collect missingKeyEnv).outcome = PassOutcome.ok :=
  ⟨by decide,
    missing_key_emits_zero.1 [("critical_warning", GjsonResult.number 0)] "temperature"
      (by decide),
    missing_key_emits_zero.2.2 missingKeyEnv rfl rfl (by decide) (by decide)⟩

/-- A healthy two-device world. -/
def twoDeviceEnv : Env where
  listExecOk := true
  listJsonValid := true
  devicePaths := [.str "/dev/nvme0", .str "/dev/nvme1"]
  modelNumbers := [.str "Model X", .str "Model Y"]
  smartLogExecOk := fun _ => true
  smartLogJsonValid := fun _ => true
  smartLog := fun _ => sampleSmartLog

/-- C5: for a well-formed inventory (paths and models of equal length) whose
health-log invocations all succeed, `nvme smart-log` is invoked exactly once
per enumerated device, in order, with that device's path as argument, and
the emitted samples pair the Nth device path with the Nth model of the two
parallel arrays (via `zip`). -/
theorem translator_invoked_per_device :
    ∀ env : Env, env.listExecOk = true → env.listJsonValid = true →
      env.devicePaths.length = env.modelNumbers.length →
      (∀ d ∈ env.devicePaths, okDevice env d) →
      (Collect env).invoked = env.devicePaths.map GjsonResult.String ∧
      (Collect env).emitted =
        devicesSamples env (env.devicePaths.zip env.modelNumbers) := by
  intro env h1 h2 hlen hok
  rw [Collect_ok env h1 h2 (le_of_eq hlen) hok]
  exact ⟨rfl, rfl⟩

theorem translator_invoked_per_device_witness :
    (Collect twoDeviceEnv).invoked = twoDeviceEnv.devicePaths.map GjsonResult.String ∧
    (Collect twoDeviceEnv).emitted =
      devicesSamples twoDeviceEnv (twoDeviceEnv.devicePaths.zip twoDeviceEnv.modelNumbers) :=
  translator_invoked_per_device twoDeviceEnv rfl rfl rfl (by decide)

/-- A two-device world in which the smart-log invocation for the second
device fails. -/
def failingSecondEnv : Env where
  listExecOk := true
  listJsonValid := true
  devicePaths := [.str "/dev/nvme0", .str "/dev/nvme1"]
  modelNumbers := [.str "Model X", .str "Model Y"]
  smartLogExecOk := fun d => !(d == "/dev/nvme1")
  smartLogJsonValid := fun _ => true
  smartLog := fun _ => sampleSmartLog

/-- C8: any exec failure or invalid JSON terminates the whole pass with a
diagnostic — an inventory failure aborts before any sample is emitted, and a
smart-log failure on one device aborts with only the earlier devices'
samples emitted, none from later devices (no per-device isolation). -/
theorem exec_or_parse_error_fatal :
    (∀ env : Env, env.listExecOk = false →
        Collect env = ⟨[], [], PassOutcome.fatal "Error running nvme command"⟩) ∧
    (∀ env : Env, env.listExecOk = true → env.listJsonValid = false →
        Collect env = ⟨[], [], PassOutcome.fatal "nvmeDeviceCmd json is not valid"⟩) ∧
    (∀ (env : Env) (pre : List GjsonResult) (d : GjsonResult)
        (post : List GjsonResult),
        env.listExecOk = true → env.listJsonValid = true →
        env.devicePaths = pre ++ d :: post →
        (∀ p ∈ pre, okDevice env p) → ¬ okDevice env d →
        pre.length < env.modelNumbers.length →
        Collect env = ⟨devicesSamples env (pre.zip env.modelNumbers),
          pre.map GjsonResult.String ++ [d.String],
          PassOutcome.fatal (smartLogFailMsg env d.String)⟩) := by
  refine ⟨?_, ?_, ?_⟩
  · intro env h
    simp [Collect, h]
  · intro env h1 h2
    simp [Collect, h1, h2]
  · intro env pre d post h1 h2 hsplit hpre hfail hlen
    exact Collect_smartLog_fatal env pre d post h1 h2 hsplit hpre hfail hlen

theorem exec_or_parse_error_fatal_witness :
    Collect failingSecondEnv =
      ⟨devicesSamples failingSecondEnv
          ([GjsonResult.str "/dev/nvme0"].zip failingSecondEnv.modelNumbers),
        [GjsonResult.str "/dev/nvme0"].map GjsonResult.String
          ++ [(GjsonResult.str "/dev/nvme1").String],
        PassOutcome.fatal (smartLogFailMsg failingSecondEnv
          (GjsonResult.str "/dev/nvme1").String)⟩ :=
  exec_or_parse_error_fatal.2.2 failingSecondEnv
    [GjsonResult.str "/dev/nvme0"] (GjsonResult.str "/dev/nvme1") []
    rfl rfl rfl (by decide) (by decide) (by decide)

/-- A world whose inventory lists no devices at all. -/
def emptyInventoryEnv : Env where
  listExecOk := true
  listJsonValid := true
  devicePaths := []
  modelNumbers := []
  smartLogExecOk := fun _ => true
  smartLogJsonValid := fun _ => true
  smartLog := fun _ => []

/-- C9: an inventory response with an empty device array yields a pass that
emits zero samples, invokes nothing, and completes without error. -/
theorem empty_inventory_no_samples :
    ∀ env : Env, env.listExecOk = true → env.listJsonValid = true →
      env.devicePaths = [] →
      Collect env = ⟨[], [], PassOutcome.ok⟩ := by
  intro env h1 h2 hempty
  have h := Collect_ok env h1 h2 (by simp [hempty]) (by simp [hempty])
  simpa [hempty, devicesSamples] using h

theorem empty_inventory_no_samples_witness :
    Collect emptyInventoryEnv = ⟨[], [], PassOutcome.ok⟩ :=
  empty_inventory_no_samples emptyInventoryEnv rfl rfl rfl

/-- A two-device world whose model array has only one entry. -/
def shortModelEnv : Env where
  listExecOk := true
  listJsonValid := true
  devicePaths := [.str "/dev/nvme0", .str "/dev/nvme1"]
  modelNumbers := [.str "Model X"]
  smartLogExecOk := fun _ => true
  smartLogJsonValid := fun _ => true
  smartLog := fun _ => sampleSmartLog

/-- C10: the model lookup `nvmeModelList[idx]` has no bounds guard — when the
model array is strictly shorter than the device-path array (and the devices
before the out-of-range index are healthy), the pass ends in a runtime panic
at index `modelNumbers.length`, not a handled error; when the model array is
at least as long, a healthy pass completes normally. -/
theorem model_array_shorter_panics :
    (∀ env : Env, env.listExecOk = true → env.listJsonValid = true →
        env.modelNumbers.length < env.devicePaths.length →
        (∀ p ∈ env.devicePaths.take env.modelNumbers.length, okDevice env p) →
        (Collect env).outcome =
          PassOutcome.panicked "runtime error: index out of range") ∧
    (∀ env : Env, env.listExecOk = true → env.listJsonValid = true →
        env.devicePaths.length ≤ env.modelNumbers.length →
        (∀ d ∈ env.devicePaths, okDevice env d) →
        (Collect env).outcome = PassOutcome.ok) := by
  constructor
  · intro env h1 h2 hshort hok
    have hdropc : env.devicePaths.drop env.modelNumbers.length
        = env.devicePaths[env.modelNumbers.length] ::
            env.devicePaths.drop (env.modelNumbers.length + 1) :=
      (List.getElem_cons_drop _ _ hshort).symm
    have hsplit : env.devicePaths
        = env.devicePaths.take env.modelNumbers.length
            ++ env.devicePaths[env.modelNumbers.length] ::
                env.devicePaths.drop (env.modelNumbers.length + 1) := by
      rw [← hdropc, List.take_append_drop]
    have htake : (env.devicePaths.take env.modelNumbers.length).length
        = env.modelNumbers.length := by
      rw [List.length_take]
      omega
    rw [Collect_model_panics env _ _ _ h1 h2 hsplit htake hok]
  · intro env h1 h2 hlen hok
    rw [Collect_ok env h1 h2 hlen hok]

theorem model_array_shorter_panics_witness :
    (Collect shortModelEnv).outcome =
      PassOutcome.panicked "runtime error: index out of range" :=
  model_array_shorter_panics.1 shortModelEnv rfl rfl (by decide) (by decide)

end NvmeExporter
